import Mathlib

/-!
Shallow embedding of `src/main.rs` of the pwtrain repository: a PipeWire
client that connects, enumerates globals, binds audio nodes and the
"settings" metadata, and uses `core.sync` correlation tokens as a
dynamically-growing completion barrier to decide when enumeration is done.

The callbacks registered in `init_roundtrip` are translated into pure Lean
functions on an explicit `Session` state; the single-threaded dispatch loop
becomes a fold over a list of incoming events (`runLoop`).  Fallible
library calls (`connect`, `get_registry`, `bind`, `sync`) are modelled by
an `Env` of success flags, with `Except` standing for process-terminating
panics (`unwrap` / `expect`).
-/

namespace Pwtrain

/-- Rust: `enum Direction { Input, Output }` (src/main.rs lines 11-15). -/
inductive Direction where
  | Input : Direction
  | Output : Direction
deriving DecidableEq, Repr

/-- Rust: `struct Device` (src/main.rs lines 17-26).  `u32` and `usize`
fields are modelled as `Nat`; the parse functions below enforce the
machine bounds where the source does. -/
structure Device where
  id : Nat
  node_name : String
  nick_name : String
  description : String
  direction : Direction
  channels : Nat
  buffer_limit : Nat
deriving DecidableEq, Repr

/-- Rust: `struct Settings` with `#[derive(Default)]` (src/main.rs lines 30-37). -/
structure Settings where
  rate : Nat
  allow_rates : List Nat
  quantum : Nat
  min_quantum : Nat
  max_quantum : Nat
deriving DecidableEq, Repr

/-- Rust `Settings::default()`: numeric fields 0, empty vector. -/
def Settings.default : Settings :=
  { rate := 0, allow_rates := [], quantum := 0, min_quantum := 0, max_quantum := 0 }

/-- Rust: `enum Request { Node(NodeListener), Meta(MetadataListener) }`
(src/main.rs lines 40-43).  The listener payload carries no further data
relevant to the claims, so only the kind is kept. -/
inductive Request where
  | Node : Request
  | Meta : Request
deriving DecidableEq, Repr

/-- Rust: `struct InitResult { devices, settings }` (src/main.rs lines 57-61). -/
structure InitResult where
  devices : List Device
  settings : Settings
deriving DecidableEq, Repr

/-- Lookup of a key in a property dictionary, an ordered list of
key/value pairs (pipewire `props.get(key)` returns the first binding). -/
def getProp (props : List (String × String)) (key : String) : Option String :=
  (props.find? fun p => p.1 == key).map Prod.snd

/-- Digit-by-digit decimal accumulation: fails on the first non-digit
character, accepts the empty remainder. -/
def decNatAux : List Char → Nat → Option Nat
  | [], acc => some acc
  | c :: cs, acc =>
    if c.isDigit then decNatAux cs (10 * acc + (c.toNat - 48)) else none

/-- Rust `str::parse::<uN>` accepts an optional leading `+` followed by
at least one decimal digit; anything else (empty string, other
characters, whitespace) is an error.  Modelled on the character list of
the string. -/
def parseDec? (s : String) : Option Nat :=
  match s.toList with
  | [] => none
  | '+' :: [] => none
  | '+' :: c :: cs => decNatAux (c :: cs) 0
  | c :: cs => decNatAux (c :: cs) 0

/-- Rust `str::parse::<u32>`: decimal parse, rejecting values outside u32. -/
def parseU32? (s : String) : Option Nat :=
  (parseDec? s).bind fun n => if n < 2 ^ 32 then some n else none

/-- Rust `str::parse::<usize>` (64-bit target): decimal parse within u64. -/
def parseUSize? (s : String) : Option Nat :=
  (parseDec? s).bind fun n => if n < 2 ^ 64 then some n else none

/-- The `for rate in list` loop of the `clock.allowed-rates` branch
(src/main.rs lines 140-145): parse every piece as `u32`, aborting the
whole update on the first parse failure. -/
def parseRatesList : List String → Option (List Nat)
  | [] => some []
  | r :: rs =>
    match parseU32? r with
    | none => none
    | some v => (parseRatesList rs).map fun tl => v :: tl

/-- Rust `str::trim`: remove whitespace from both ends, here on the
character list. -/
def trimChars (cs : List Char) : List Char :=
  ((cs.dropWhile Char.isWhitespace).reverse.dropWhile Char.isWhitespace).reverse

/-- The `clock.allowed-rates` value parse (src/main.rs lines 130-146):
`strip_prefix("[")` (first character must be the opening bracket),
`strip_suffix("]")` (last remaining character must be the closing
bracket), `trim`, `split(' ')`, then the element-wise `u32` parse;
`none` models the early `return 0`. -/
def parseAllowedRates (v : String) : Option (List Nat) :=
  match v.toList with
  | '[' :: rest =>
    match rest.getLast? with
    | some ']' =>
      parseRatesList
        ((trimChars rest.dropLast).splitOn ' ' |>.map fun cs => String.mk cs)
    | _ => none
  | _ => none

/-- The metadata `property` closure (src/main.rs lines 122-169): one
key/value pair per event; a recognized key with a value that parses
replaces exactly that field, any parse failure returns early leaving the
record untouched, and every other key (or a missing key or value) falls
through to the catch-all arm. -/
def applyProperty (s : Settings) (key value : Option String) : Settings :=
  match key, value with
  | some k, some v =>
    if k = "clock.rate" then
      match parseU32? v with
      | none => s
      | some r => { s with rate := r }
    else if k = "clock.allowed-rates" then
      match parseAllowedRates v with
      | none => s
      | some l => { s with allow_rates := l }
    else if k = "clock.quantum" then
      match parseU32? v with
      | none => s
      | some n => { s with quantum := n }
    else if k = "clock.min-quantum" then
      match parseU32? v with
      | none => s
      | some n => { s with min_quantum := n }
    else if k = "clock.max-quantum" then
      match parseU32? v with
      | none => s
      | some n => { s with max_quantum := n }
    else s
  | _, _ => s

/-- The object types dispatched on by the registry `global` closure
(src/main.rs line 109): `Metadata`, `Node`, and every other PipeWire
object type collapsed into `Other` (all hit the same `_ => {}` arm). -/
inductive PwObjectType where
  | Node : PwObjectType
  | Metadata : PwObjectType
  | Other : String → PwObjectType
deriving DecidableEq, Repr

/-- A registry announcement (`GlobalObject`): id, type and optional
property dictionary. -/
structure GlobalObject where
  id : Nat
  type_ : PwObjectType
  props : Option (List (String × String))
deriving DecidableEq, Repr

/-- The payload of a node `info` event: the node id reported by
`info.id()` and the optional property dictionary `info.props()`. -/
structure NodeInfo where
  id : Nat
  props : Option (List (String × String))
deriving DecidableEq, Repr

/-- The guard chain of the registry `global` closure (src/main.rs lines
109-190): which listener kind, if any, a announcement leads to.
`Metadata` requires `metadata.name == "settings"`; `Node` requires a
property dictionary whose `media.class` is `Audio/Sink` or
`Audio/Source`; everything else is ignored. -/
def relevantGlobal (g : GlobalObject) : Option Request :=
  match g.type_ with
  | PwObjectType.Metadata =>
    match g.props with
    | none => none
    | some props =>
      match getProp props "metadata.name" with
      | none => none
      | some nm => if nm = "settings" then some Request.Meta else none
  | PwObjectType.Node =>
    match g.props with
    | none => none
    | some props =>
      match getProp props "media.class" with
      | none => none
      | some c =>
        if c = "Audio/Sink" ∨ c = "Audio/Source" then some Request.Node else none
  | PwObjectType.Other _ => none

/-- The node `info` closure body (src/main.rs lines 196-233): guard on a
present property dictionary with a recognized `media.class`, then build
the `Device` with the documented fallbacks (`unwrap_or("unknown")`,
`unwrap_or(2)`, `unwrap_or(0)`); `none` models the early returns. -/
def deviceOfInfo? (info : NodeInfo) : Option Device :=
  match info.props with
  | none => none
  | some props =>
    match getProp props "media.class" with
    | none => none
    | some mediaClass =>
      let direction? : Option Direction :=
        if mediaClass = "Audio/Sink" then some Direction.Input
        else if mediaClass = "Audio/Source" then some Direction.Output
        else none
      match direction? with
      | none => none
      | some direction =>
        some
          { id := info.id
            node_name := (getProp props "node.name").getD "unknown"
            nick_name := (getProp props "node.nick").getD "unknown"
            description := (getProp props "node.description").getD "unknown"
            direction := direction
            channels := ((getProp props "audio.channels").bind parseUSize?).getD 2
            buffer_limit :=
              ((getProp props "clock.quantum-limit").bind parseU32?).getD 0 }

/-- The constant `pw::core::PW_ID_CORE`, the well-known id of the core
object, against which the `done` closure filters (src/main.rs line 87). -/
def PW_ID_CORE : Nat := 0

/-- An event dispatched by the main loop to one of the four registered
callbacks.  `done` is the core `done` event (id, sequence token);
`globalAdded` a registry announcement; `nodeInfo` an info event delivered
to a bound node listener; `metaProperty` a property event delivered to a
bound metadata listener, identified by the bound object id. -/
inductive Event where
  | globalAdded : GlobalObject → Event
  | done : Nat → Nat → Event
  | nodeInfo : NodeInfo → Event
  | metaProperty : Nat → Option String → Option String → Event
deriving DecidableEq, Repr

/-- The session state mutated by the callbacks of `init_roundtrip`:
`peddings` (sic, the pending token vector, line 77), `devices`,
`settings`, `requests` (the owned subscription vector, modelled by the
bound object id and listener kind), `quit` (whether `loop_clone.quit()`
has run).  `nextSeq` models `core.sync` handing out fresh sequence
tokens, so it also counts the sync calls made so far; `bindCount` counts
the `registry.bind` calls.  `matchedCount` and `discoveredCount` are
instrumentation only (not state of the source): they count completion
events matched against a tracked token, and relevant discoveries. -/
structure Session where
  peddings : List Nat
  devices : List Device
  settings : Settings
  requests : List (Nat × Request)
  nextSeq : Nat
  bindCount : Nat
  quit : Bool
  matchedCount : Nat
  discoveredCount : Nat
deriving DecidableEq, Repr

/-- One dispatch step, all library calls succeeding: the translation of
the four closures of `init_roundtrip`.
`done` (lines 84-99): ignore foreign ids; look up the token
(`position` + `remove` = erase the first occurrence); quit when the
vector becomes empty.
`globalAdded` (lines 109-244): on a relevant object, bind, register the
listener, `core.sync`, track the fresh token, store the subscription.
`nodeInfo` (lines 196-235): delivered only to a bound node listener;
append the parsed device, or nothing when a guard fails.
`metaProperty` (lines 122-169): delivered only to the bound settings
metadata listener; apply the single-key update. -/
def stepOk (s : Session) (e : Event) : Session :=
  match e with
  | Event.done id seq =>
    if id ≠ PW_ID_CORE then s
    else if s.peddings.contains seq then
      let p := s.peddings.erase seq
      { s with peddings := p
               matchedCount := s.matchedCount + 1
               quit := if p.isEmpty then true else s.quit }
    else s
  | Event.globalAdded g =>
    match relevantGlobal g with
    | none => s
    | some kind =>
      { s with requests := s.requests ++ [(g.id, kind)]
               peddings := s.peddings ++ [s.nextSeq]
               nextSeq := s.nextSeq + 1
               bindCount := s.bindCount + 1
               discoveredCount := s.discoveredCount + 1 }
  | Event.nodeInfo info =>
    if s.requests.contains (info.id, Request.Node) then
      match deviceOfInfo? info with
      | none => s
      | some d => { s with devices := s.devices ++ [d] }
    else s
  | Event.metaProperty metaId key value =>
    if s.requests.contains (metaId, Request.Meta) then
      { s with settings := applyProperty s.settings key value }
    else s

/-- The dispatch loop `mainloop.run()`: process events in arrival order;
once `quit` has been requested no further event is dispatched. -/
def runLoop (s : Session) : List Event → Session
  | [] => s
  | e :: es => if s.quit then s else runLoop (stepOk s e) es

/-- The session state right before `mainloop.run()`: the initial
`core.sync(0)` (line 78) has issued token 0, which is the only tracked
token; every store is empty. -/
def initSession : Session :=
  { peddings := [0], devices := [], settings := Settings.default, requests := []
    nextSeq := 1, bindCount := 0, quit := false
    matchedCount := 0, discoveredCount := 0 }

/-- Success or failure of the fallible library calls of
`init_roundtrip`: the four `.ok()?` constructor calls, plus
`registry.bind` (by bind-call index) and `core.sync` (by sync-call
index, the initial pre-loop sync being call 0). -/
structure Env where
  mainloopOk : Bool
  contextOk : Bool
  connectOk : Bool
  registryOk : Bool
  bindOk : Nat → Bool
  syncOk : Nat → Bool

/-- The environment in which every library call succeeds. -/
def envOk : Env :=
  { mainloopOk := true, contextOk := true, connectOk := true, registryOk := true
    bindOk := fun _ => true, syncOk := fun _ => true }

/-- One dispatch step with fallible library calls: a relevant
announcement performs `registry.bind(global).unwrap()` and then
`core.sync(0).expect("sync failed")`; either failure panics, which
aborts the process, so no partial state survives it.  All other events
perform no fallible call. -/
def stepE (env : Env) (s : Session) (e : Event) : Except String Session :=
  match e with
  | Event.globalAdded g =>
    match relevantGlobal g with
    | none => Except.ok (stepOk s e)
    | some _ =>
      if env.bindOk s.bindCount = false then Except.error "bind failed"
      else if env.syncOk s.nextSeq = false then Except.error "sync failed"
      else Except.ok (stepOk s e)
  | _ => Except.ok (stepOk s e)

/-- The dispatch loop with fallible library calls: a panic inside a
callback aborts the whole run at once (no later event is dispatched). -/
def runE (env : Env) (s : Session) : List Event → Except String Session
  | [] => Except.ok s
  | e :: es =>
    if s.quit then Except.ok s
    else
      match stepE env s e with
      | Except.error m => Except.error m
      | Except.ok s2 => runE env s2 es

/-- Rust `init_roundtrip` (src/main.rs lines 63-253): the four `.ok()?` calls
(returning `none` on failure), the initial `core.sync(0).expect`, the
dispatch loop over the incoming events, then the final
`InitResult`.  `Except.error` models a process-aborting panic. -/
def init_roundtrip (env : Env) (es : List Event) :
    Except String (Option InitResult) :=
  if env.mainloopOk = false then Except.ok none
  else if env.contextOk = false then Except.ok none
  else if env.connectOk = false then Except.ok none
  else if env.registryOk = false then Except.ok none
  else if env.syncOk 0 = false then Except.error "sync failed"
  else
    match runE env initSession es with
    | Except.error m => Except.error m
    | Except.ok s => Except.ok (some { devices := s.devices, settings := s.settings })

/-- Rust `main` (src/main.rs lines 255-263): `init_roundtrip().unwrap()` — a
`none` from `init_roundtrip` panics too, so every failure path aborts
the process with a non-zero status and no result. -/
def mainResult (env : Env) (es : List Event) : Except String InitResult :=
  match init_roundtrip env es with
  | Except.error m => Except.error m
  | Except.ok none => Except.error "unwrap on None"
  | Except.ok (some r) => Except.ok r

/-! ### Helper lemmas -/

/-- In the all-success environment a dispatch step never panics and
agrees with the pure step. -/
theorem stepE_envOk (s : Session) (e : Event) :
    stepE envOk s e = Except.ok (stepOk s e) := by
  cases e with
  | globalAdded g => cases h : relevantGlobal g <;> simp [stepE, envOk, h]
  | done id seq => rfl
  | nodeInfo info => rfl
  | metaProperty m k v => rfl

/-- In the all-success environment the fallible loop never panics and
agrees with the pure loop. -/
theorem runE_envOk (es : List Event) : ∀ s : Session,
    runE envOk s es = Except.ok (runLoop s es) := by
  induction es with
  | nil => intro s; rfl
  | cons e es ih =>
    intro s
    by_cases hq : s.quit = true
    · simp [runE, runLoop, hq]
    · simp [runE, runLoop, hq, stepE_envOk, ih]

/-- The `done` closure ignores events with a foreign id or an untracked
token (src/main.rs lines 87-93). -/
theorem stepOk_done_noop (s : Session) (id seq : Nat)
    (h : id ≠ PW_ID_CORE ∨ s.peddings.contains seq = false) :
    stepOk s (Event.done id seq) = s := by
  rcases h with h | h
  · simp [stepOk, h]
  · simp only [stepOk]
    rw [h]
    simp

/-- The `done` closure on a tracked token erases its first occurrence
and quits when the vector becomes empty (src/main.rs lines 90-98). -/
theorem stepOk_done_found (s : Session) (seq : Nat)
    (hc : s.peddings.contains seq = true) :
    stepOk s (Event.done PW_ID_CORE seq) =
      { s with peddings := s.peddings.erase seq
               matchedCount := s.matchedCount + 1
               quit := if (s.peddings.erase seq).isEmpty then true else s.quit } := by
  have hne : ¬(PW_ID_CORE ≠ PW_ID_CORE) := fun hh => hh rfl
  simp only [stepOk]
  rw [if_neg hne, if_pos hc]

/-- C2: for every completion event whose token is not currently tracked,
or whose id is not the core id, the `done` closure is a no-op: it never
fails, never changes the pending vector, and never quits by itself; for
a tracked token it erases that token, shrinks the vector by one, and
quits exactly when the vector thereby becomes empty. -/
theorem C2_complete_noop_or_remove (s : Session) (id seq : Nat) :
    ((id ≠ PW_ID_CORE ∨ s.peddings.contains seq = false) →
      stepOk s (Event.done id seq) = s) ∧
    (s.peddings.contains seq = true → s.quit = false →
      (stepOk s (Event.done PW_ID_CORE seq)).peddings = s.peddings.erase seq ∧
      (stepOk s (Event.done PW_ID_CORE seq)).peddings.length + 1 = s.peddings.length ∧
      ((stepOk s (Event.done PW_ID_CORE seq)).quit = true ↔
        s.peddings.erase seq = [])) := by
  constructor
  · exact stepOk_done_noop s id seq
  · intro hc hq
    have hm : seq ∈ s.peddings := List.elem_iff.mp hc
    rw [stepOk_done_found s seq hc]
    refine ⟨rfl, ?_, ?_⟩
    · have := List.length_erase_of_mem hm
      have hpos : 0 < s.peddings.length := List.length_pos_of_mem hm
      simp only [this]
      omega
    · cases he : (s.peddings.erase seq).isEmpty <;>
        simp_all [List.isEmpty_iff]

/-- Witness for C2 at a concrete session: the unknown token 7 is ignored
and the tracked token 0 quits the loop. -/
theorem C2_witness :
    stepOk initSession (Event.done PW_ID_CORE 7) = initSession ∧
    ((stepOk initSession (Event.done PW_ID_CORE 0)).peddings = [] ∧
      (stepOk initSession (Event.done PW_ID_CORE 0)).quit = true) := by
  refine ⟨(C2_complete_noop_or_remove initSession PW_ID_CORE 7).1 (Or.inr (by decide)), ?_, ?_⟩
  · exact ((C2_complete_noop_or_remove initSession PW_ID_CORE 0).2 (by decide) rfl).1
  · exact ((C2_complete_noop_or_remove initSession PW_ID_CORE 0).2 (by decide) rfl).2.2.mpr (by decide)

/-- C5: an irrelevant announcement — any type other than Node or
Metadata; a Node without properties, without `media.class`, or with a
`media.class` that is neither `Audio/Sink` nor `Audio/Source`; or a
Metadata whose `metadata.name` is not `settings` — has no side effect:
no bind, no listener, no subscription, no tracked token, even in an
environment where bind or sync would fail. -/
theorem C5_irrelevant_no_side_effect (env : Env) (s : Session) (g : GlobalObject)
    (h : (∃ nm, g.type_ = PwObjectType.Other nm) ∨
      (g.type_ = PwObjectType.Node ∧ (g.props = none ∨
        ∃ ps, g.props = some ps ∧ (getProp ps "media.class" = none ∨
          ∃ c, getProp ps "media.class" = some c ∧
            c ≠ "Audio/Sink" ∧ c ≠ "Audio/Source"))) ∨
      (g.type_ = PwObjectType.Metadata ∧ (g.props = none ∨
        ∃ ps, g.props = some ps ∧
          ∀ nm, getProp ps "metadata.name" = some nm → nm ≠ "settings"))) :
    relevantGlobal g = none ∧
    stepOk s (Event.globalAdded g) = s ∧
    stepE env s (Event.globalAdded g) = Except.ok s := by
  have hrel : relevantGlobal g = none := by
    rcases h with ⟨nm, ht⟩ | ⟨ht, hp | ⟨ps, hp, hcl | ⟨c, hcl, h1, h2⟩⟩⟩ |
      ⟨ht, hp | ⟨ps, hp, hnm⟩⟩
    · simp [relevantGlobal, ht]
    · simp [relevantGlobal, ht, hp]
    · simp [relevantGlobal, ht, hp, hcl]
    · simp [relevantGlobal, ht, hp, hcl, h1, h2]
    · simp [relevantGlobal, ht, hp]
    · cases hg : getProp ps "metadata.name" with
      | none => simp [relevantGlobal, ht, hp, hg]
      | some nm => simp [relevantGlobal, ht, hp, hg, hnm nm hg]
  refine ⟨hrel, by simp [stepOk, hrel], by simp [stepE, hrel, stepOk]⟩

/-- Witness for C5: an announcement of a `Other "Factory"` object, with
an environment in which every bind and sync would fail, leaves the
initial session untouched. -/
theorem C5_witness :
    relevantGlobal ⟨1, PwObjectType.Other "Factory", none⟩ = none ∧
    stepOk initSession (Event.globalAdded ⟨1, PwObjectType.Other "Factory", none⟩) =
      initSession ∧
    stepE ⟨true, true, true, true, fun _ => false, fun _ => false⟩ initSession
      (Event.globalAdded ⟨1, PwObjectType.Other "Factory", none⟩) =
      Except.ok initSession :=
  C5_irrelevant_no_side_effect _ initSession _ (Or.inl ⟨"Factory", rfl⟩)

/-- C6: a relevant announcement (an audio Node, or the `settings`
Metadata) binds a handle (`bindCount` grows), issues a barrier request
(`nextSeq` grows), tracks the fresh token in the pending vector, and
stores the (handle, listener) subscription — all within the discovery
callback, i.e. in the same dispatch step; the settings metadata follows
the very same pattern with its own listener kind. -/
theorem C6_relevant_subscribes (s : Session) (g : GlobalObject)
    (h : (g.type_ = PwObjectType.Node ∧ ∃ ps c, g.props = some ps ∧
            getProp ps "media.class" = some c ∧
            (c = "Audio/Sink" ∨ c = "Audio/Source")) ∨
         (g.type_ = PwObjectType.Metadata ∧ ∃ ps, g.props = some ps ∧
            getProp ps "metadata.name" = some "settings")) :
    ∃ kind : Request,
      relevantGlobal g = some kind ∧
      (g.type_ = PwObjectType.Node → kind = Request.Node) ∧
      (g.type_ = PwObjectType.Metadata → kind = Request.Meta) ∧
      stepOk s (Event.globalAdded g) =
        { s with requests := s.requests ++ [(g.id, kind)]
                 peddings := s.peddings ++ [s.nextSeq]
                 nextSeq := s.nextSeq + 1
                 bindCount := s.bindCount + 1
                 discoveredCount := s.discoveredCount + 1 } := by
  rcases h with ⟨ht, ps, c, hp, hcl, hor⟩ | ⟨ht, ps, hp, hnm⟩
  · have hrel : relevantGlobal g = some Request.Node := by
      simp [relevantGlobal, ht, hp, hcl, hor]
    exact ⟨Request.Node, hrel, fun _ => rfl, by simp [ht], by simp [stepOk, hrel]⟩
  · have hrel : relevantGlobal g = some Request.Meta := by
      simp [relevantGlobal, ht, hp, hnm]
    exact ⟨Request.Meta, hrel, by simp [ht], fun _ => rfl, by simp [stepOk, hrel]⟩

/-- Witness for C6: announcing the settings metadata object from the
initial session tracks token 1 and stores the metadata subscription. -/
theorem C6_witness :
    ∃ kind : Request,
      relevantGlobal ⟨9, PwObjectType.Metadata, some [("metadata.name", "settings")]⟩ =
        some kind ∧
      (PwObjectType.Metadata = PwObjectType.Node → kind = Request.Node) ∧
      (PwObjectType.Metadata = PwObjectType.Metadata → kind = Request.Meta) ∧
      stepOk initSession
        (Event.globalAdded ⟨9, PwObjectType.Metadata, some [("metadata.name", "settings")]⟩) =
        { initSession with
            requests := initSession.requests ++ [(9, kind)]
            peddings := initSession.peddings ++ [initSession.nextSeq]
            nextSeq := initSession.nextSeq + 1
            bindCount := initSession.bindCount + 1
            discoveredCount := initSession.discoveredCount + 1 } :=
  C6_relevant_subscribes initSession _ (Or.inr ⟨rfl, [("metadata.name", "settings")], rfl, by decide⟩)

/-- C10: an info event whose properties are absent, lack `media.class`,
or carry an unrecognized `media.class` produces no device and leaves the
whole session unchanged, even though the object was deemed relevant at
discovery time. -/
theorem C10_guarded_info_appends_nothing (s : Session) (info : NodeInfo)
    (h : info.props = none ∨ ∃ ps, info.props = some ps ∧
      (getProp ps "media.class" = none ∨
        ∃ c, getProp ps "media.class" = some c ∧
          c ≠ "Audio/Sink" ∧ c ≠ "Audio/Source")) :
    deviceOfInfo? info = none ∧ stepOk s (Event.nodeInfo info) = s := by
  have hd : deviceOfInfo? info = none := by
    rcases h with hp | ⟨ps, hp, hcl | ⟨c, hcl, h1, h2⟩⟩
    · simp [deviceOfInfo?, hp]
    · simp [deviceOfInfo?, hp, hcl]
    · simp [deviceOfInfo?, hp, hcl, h1, h2]
  refine ⟨hd, ?_⟩
  cases hr : s.requests.contains (info.id, Request.Node) <;> simp [stepOk, hr, hd]

/-- Witness for C10: an info event without properties, delivered to a
session that does hold the node subscription, appends nothing. -/
theorem C10_witness :
    deviceOfInfo? ⟨5, none⟩ = none ∧
    stepOk { initSession with requests := [(5, Request.Node)] }
      (Event.nodeInfo ⟨5, none⟩) =
      { initSession with requests := [(5, Request.Node)] } :=
  C10_guarded_info_appends_nothing _ _ (Or.inl rfl)

/-- Unfolding of the `clock.rate` arm of the settings property closure. -/
theorem applyProperty_rate (s : Settings) (v : String) :
    applyProperty s (some "clock.rate") (some v) =
      match parseU32? v with
      | none => s
      | some r => { s with rate := r } := by
  simp only [applyProperty, if_true]

/-- Unfolding of the `clock.allowed-rates` arm of the settings property
closure. -/
theorem applyProperty_allowed_rates (s : Settings) (v : String) :
    applyProperty s (some "clock.allowed-rates") (some v) =
      match parseAllowedRates v with
      | none => s
      | some l => { s with allow_rates := l } := by
  simp only [applyProperty, if_true]
  rw [if_neg (by decide)]

/-- Unfolding of the `clock.quantum` arm of the settings property closure. -/
theorem applyProperty_quantum (s : Settings) (v : String) :
    applyProperty s (some "clock.quantum") (some v) =
      match parseU32? v with
      | none => s
      | some n => { s with quantum := n } := by
  simp only [applyProperty, if_true]
  rw [if_neg (by decide), if_neg (by decide)]

/-- Unfolding of the `clock.min-quantum` arm of the settings property
closure. -/
theorem applyProperty_min_quantum (s : Settings) (v : String) :
    applyProperty s (some "clock.min-quantum") (some v) =
      match parseU32? v with
      | none => s
      | some n => { s with min_quantum := n } := by
  simp only [applyProperty, if_true]
  rw [if_neg (by decide), if_neg (by decide), if_neg (by decide)]

/-- Unfolding of the `clock.max-quantum` arm of the settings property
closure. -/
theorem applyProperty_max_quantum (s : Settings) (v : String) :
    applyProperty s (some "clock.max-quantum") (some v) =
      match parseU32? v with
      | none => s
      | some n => { s with max_quantum := n } := by
  simp only [applyProperty, if_true]
  rw [if_neg (by decide), if_neg (by decide), if_neg (by decide),
    if_neg (by decide)]

/-- Unrecognized keys, and events missing the key or the value, fall
through to the catch-all arm. -/
theorem applyProperty_unrecognized (s : Settings) (value : Option String) (k : String)
    (h1 : k ≠ "clock.rate") (h2 : k ≠ "clock.allowed-rates")
    (h3 : k ≠ "clock.quantum") (h4 : k ≠ "clock.min-quantum")
    (h5 : k ≠ "clock.max-quantum") :
    applyProperty s (some k) value = s := by
  cases value with
  | none => rfl
  | some v0 =>
    simp only [applyProperty]
    rw [if_neg h1, if_neg h2, if_neg h3, if_neg h4, if_neg h5]

/-- A successful element-wise rate parse yields one rate per piece of
the split. -/
theorem parseRatesList_length : ∀ (xs : List String) (l : List Nat),
    parseRatesList xs = some l → l.length = xs.length := by
  intro xs
  induction xs with
  | nil =>
    intro l h
    simp only [parseRatesList, Option.some.injEq] at h
    rw [← h]
    rfl
  | cons r rs ih =>
    intro l h
    simp only [parseRatesList] at h
    cases hp : parseU32? r with
    | none => rw [hp] at h; exact absurd h (by simp)
    | some v =>
      rw [hp] at h
      cases ht : parseRatesList rs with
      | none => rw [ht] at h; exact absurd h (by simp)
      | some tl =>
        rw [ht] at h
        simp only [Option.map_some', Option.some.injEq] at h
        rw [← h]
        simp [ih tl ht]

/-- Rust `split` never yields an empty list of pieces: on the empty
string it yields one empty piece. -/
theorem splitChars_ne_nil (cs : List Char) :
    (cs.splitOn ' ').map (fun l => String.mk l) ≠ [] := by
  intro h
  rw [List.map_eq_nil_iff] at h
  exact List.splitOnP_ne_nil _ _ h

/-- A successfully parsed allowed-rates list is never empty: the split
has at least one piece, and each piece contributes one rate. -/
theorem parseAllowedRates_ne_nil (v : String) (l : List Nat)
    (h : parseAllowedRates v = some l) : l ≠ [] := by
  unfold parseAllowedRates at h
  split at h
  · split at h
    · intro hnil
      have hlen := parseRatesList_length _ _ h
      rw [hnil] at hlen
      exact splitChars_ne_nil _ (List.length_eq_zero.mp hlen.symm)
    · exact absurd h (by simp)
  · exact absurd h (by simp)

/-- C3: a recognized settings key with a well-formed value replaces
exactly that field of the Settings record; a malformed value (bracket
framing or element parse failure for `clock.allowed-rates`, integer
parse failure for the scalar keys) discards the whole update; missing
keys, missing values and unrecognized keys are ignored; and the
three-event scenario `clock.rate=48000`,
`clock.allowed-rates=[44100 48000]`, `clock.allowed-rates=[44100 xyz]`
ends with rate 48000 and allowed rates [44100, 48000]. -/
theorem C3_settings_event_atomic (s : Settings) (v : String) (key value : Option String) :
    (∀ r, parseU32? v = some r →
      applyProperty s (some "clock.rate") (some v) = { s with rate := r }) ∧
    (parseU32? v = none → applyProperty s (some "clock.rate") (some v) = s) ∧
    (∀ l, parseAllowedRates v = some l →
      applyProperty s (some "clock.allowed-rates") (some v) = { s with allow_rates := l }) ∧
    (parseAllowedRates v = none →
      applyProperty s (some "clock.allowed-rates") (some v) = s) ∧
    (∀ n, parseU32? v = some n →
      applyProperty s (some "clock.quantum") (some v) = { s with quantum := n }) ∧
    (parseU32? v = none → applyProperty s (some "clock.quantum") (some v) = s) ∧
    (∀ n, parseU32? v = some n →
      applyProperty s (some "clock.min-quantum") (some v) = { s with min_quantum := n }) ∧
    (parseU32? v = none → applyProperty s (some "clock.min-quantum") (some v) = s) ∧
    (∀ n, parseU32? v = some n →
      applyProperty s (some "clock.max-quantum") (some v) = { s with max_quantum := n }) ∧
    (parseU32? v = none → applyProperty s (some "clock.max-quantum") (some v) = s) ∧
    (applyProperty s none value = s) ∧
    (applyProperty s key none = s) ∧
    (∀ k, k ≠ "clock.rate" → k ≠ "clock.allowed-rates" → k ≠ "clock.quantum" →
      k ≠ "clock.min-quantum" → k ≠ "clock.max-quantum" →
      applyProperty s (some k) value = s) ∧
    (applyProperty (applyProperty (applyProperty Settings.default
        (some "clock.rate") (some "48000"))
        (some "clock.allowed-rates") (some "[44100 48000]"))
        (some "clock.allowed-rates") (some "[44100 xyz]") =
      { rate := 48000, allow_rates := [44100, 48000], quantum := 0,
        min_quantum := 0, max_quantum := 0 }) := by
  refine ⟨?_, ?_, ?_, ?_, ?_, ?_, ?_, ?_, ?_, ?_, ?_, ?_, ?_, ?_⟩
  · intro r hr; rw [applyProperty_rate, hr]
  · intro hr; rw [applyProperty_rate, hr]
  · intro l hl; rw [applyProperty_allowed_rates, hl]
  · intro hl; rw [applyProperty_allowed_rates, hl]
  · intro n hn; rw [applyProperty_quantum, hn]
  · intro hn; rw [applyProperty_quantum, hn]
  · intro n hn; rw [applyProperty_min_quantum, hn]
  · intro hn; rw [applyProperty_min_quantum, hn]
  · intro n hn; rw [applyProperty_max_quantum, hn]
  · intro hn; rw [applyProperty_max_quantum, hn]
  · cases value <;> rfl
  · cases key <;> rfl
  · intro k h1 h2 h3 h4 h5; exact applyProperty_unrecognized s value k h1 h2 h3 h4 h5
  · decide

/-- C9 counterexample: a bracketed list with a leading separator space,
`[ 44100]`, is accepted, not rejected — the interior is trimmed before
splitting, so the update is applied (allowed rates change from the
default empty list to [44100]). -/
theorem C9_counterexample :
    (applyProperty Settings.default (some "clock.allowed-rates")
      (some "[ 44100]")).allow_rates = [44100] := by decide

/-- C9 (amended): the empty bracketed list `[]` is rejected, and so is
a list with consecutive interior separator spaces; spaces next to the
brackets are trimmed away before splitting and therefore accepted; a
successfully parsed list is never empty, so no settings property event
can ever set the allowed-rates field to the empty list. -/
theorem C9_allowed_rates_never_emptied (s : Settings) (v : String) :
    applyProperty s (some "clock.allowed-rates") (some "[]") = s ∧
    applyProperty s (some "clock.allowed-rates") (some "[44100  48000]") = s ∧
    (applyProperty { s with allow_rates := [] } (some "clock.allowed-rates")
      (some "[ 44100]")).allow_rates = [44100] ∧
    (∀ l, parseAllowedRates v = some l → l ≠ []) ∧
    (∀ key value, (applyProperty s key value).allow_rates = [] →
      s.allow_rates = []) := by
  refine ⟨?_, ?_, ?_, fun l hl => parseAllowedRates_ne_nil v l hl, ?_⟩
  · rw [applyProperty_allowed_rates,
      show parseAllowedRates "[]" = (none : Option (List Nat)) from by decide]
  · rw [applyProperty_allowed_rates,
      show parseAllowedRates "[44100  48000]" = (none : Option (List Nat)) from by decide]
  · rw [applyProperty_allowed_rates,
      show parseAllowedRates "[ 44100]" = some [44100] from by decide]
  · intro key value h
    cases key with
    | none => cases value <;> exact h
    | some k =>
      cases value with
      | none => exact h
      | some v0 =>
        by_cases h1 : k = "clock.rate"
        · subst h1; rw [applyProperty_rate] at h
          cases hp : parseU32? v0 <;> rw [hp] at h <;> exact h
        · by_cases h2 : k = "clock.allowed-rates"
          · subst h2; rw [applyProperty_allowed_rates] at h
            cases hp : parseAllowedRates v0 with
            | none => rw [hp] at h; exact h
            | some l =>
              rw [hp] at h
              exact absurd h (parseAllowedRates_ne_nil v0 l hp)
          · by_cases h3 : k = "clock.quantum"
            · subst h3; rw [applyProperty_quantum] at h
              cases hp : parseU32? v0 <;> rw [hp] at h <;> exact h
            · by_cases h4 : k = "clock.min-quantum"
              · subst h4; rw [applyProperty_min_quantum] at h
                cases hp : parseU32? v0 <;> rw [hp] at h <;> exact h
              · by_cases h5 : k = "clock.max-quantum"
                · subst h5; rw [applyProperty_max_quantum] at h
                  cases hp : parseU32? v0 <;> rw [hp] at h <;> exact h
                · rw [applyProperty_unrecognized s (some v0) k h1 h2 h3 h4 h5] at h
                  exact h

/-- C4: a device info event that produces an entity substitutes the
literal "unknown" for each missing string property (node.name,
node.nick, node.description) and the default 2 for a missing or
unparsable audio.channels value, without aborting; the resulting device
is appended to the device store of a session holding the node
subscription. -/
theorem C4_device_defaults (s : Session) (info : NodeInfo) (ps : List (String × String))
    (hp : info.props = some ps)
    (hc : getProp ps "media.class" = some "Audio/Sink" ∨
          getProp ps "media.class" = some "Audio/Source") :
    ∃ d : Device,
      deviceOfInfo? info = some d ∧
      (getProp ps "node.name" = none → d.node_name = "unknown") ∧
      (getProp ps "node.nick" = none → d.nick_name = "unknown") ∧
      (getProp ps "node.description" = none → d.description = "unknown") ∧
      (getProp ps "audio.channels" = none → d.channels = 2) ∧
      (∀ c, getProp ps "audio.channels" = some c → parseUSize? c = none →
        d.channels = 2) ∧
      (s.requests.contains (info.id, Request.Node) = true →
        stepOk s (Event.nodeInfo info) = { s with devices := s.devices ++ [d] }) := by
  rcases hc with hc | hc
  · refine ⟨{ id := info.id
              node_name := (getProp ps "node.name").getD "unknown"
              nick_name := (getProp ps "node.nick").getD "unknown"
              description := (getProp ps "node.description").getD "unknown"
              direction := Direction.Input
              channels := ((getProp ps "audio.channels").bind parseUSize?).getD 2
              buffer_limit := ((getProp ps "clock.quantum-limit").bind parseU32?).getD 0 },
      ?_, ?_, ?_, ?_, ?_, ?_, ?_⟩
    · simp [deviceOfInfo?, hp, hc]
    · intro h; simp [h]
    · intro h; simp [h]
    · intro h; simp [h]
    · intro h; simp [h]
    · intro c h1 h2; simp [h1, h2]
    · intro hr
      have hm : (info.id, Request.Node) ∈ s.requests := by simpa using hr
      simp [stepOk, hm, deviceOfInfo?, hp, hc]
  · refine ⟨{ id := info.id
              node_name := (getProp ps "node.name").getD "unknown"
              nick_name := (getProp ps "node.nick").getD "unknown"
              description := (getProp ps "node.description").getD "unknown"
              direction := Direction.Output
              channels := ((getProp ps "audio.channels").bind parseUSize?).getD 2
              buffer_limit := ((getProp ps "clock.quantum-limit").bind parseU32?).getD 0 },
      ?_, ?_, ?_, ?_, ?_, ?_, ?_⟩
    · simp [deviceOfInfo?, hp, hc]
    · intro h; simp [h]
    · intro h; simp [h]
    · intro h; simp [h]
    · intro h; simp [h]
    · intro c h1 h2; simp [h1, h2]
    · intro hr
      have hm : (info.id, Request.Node) ∈ s.requests := by simpa using hr
      simp [stepOk, hm, deviceOfInfo?, hp, hc]

/-- Witness for C4: an info event carrying only the media class, for a
session holding the node subscription, appends a device with every
default filled in. -/
theorem C4_witness :
    ∃ d : Device,
      deviceOfInfo? ⟨3, some [("media.class", "Audio/Sink")]⟩ = some d ∧
      (getProp [("media.class", "Audio/Sink")] "node.name" = none →
        d.node_name = "unknown") ∧
      (getProp [("media.class", "Audio/Sink")] "node.nick" = none →
        d.nick_name = "unknown") ∧
      (getProp [("media.class", "Audio/Sink")] "node.description" = none →
        d.description = "unknown") ∧
      (getProp [("media.class", "Audio/Sink")] "audio.channels" = none →
        d.channels = 2) ∧
      (∀ c, getProp [("media.class", "Audio/Sink")] "audio.channels" = some c →
        parseUSize? c = none → d.channels = 2) ∧
      ({ initSession with requests := [(3, Request.Node)] }.requests.contains
          (3, Request.Node) = true →
        stepOk { initSession with requests := [(3, Request.Node)] }
          (Event.nodeInfo ⟨3, some [("media.class", "Audio/Sink")]⟩) =
          { { initSession with requests := [(3, Request.Node)] } with
              devices := { initSession with
                requests := [(3, Request.Node)] }.devices ++ [d] }) :=
  C4_device_defaults { initSession with requests := [(3, Request.Node)] }
    ⟨3, some [("media.class", "Audio/Sink")]⟩ [("media.class", "Audio/Sink")]
    rfl (Or.inl (by decide))

/-- The completion-barrier invariant of the dispatch loop: every issued
token is either matched or still pending, exactly one token more than
the number of discoveries has been issued, and the loop has quit exactly
when the pending vector is empty. -/
def BarrierInv (s : Session) : Prop :=
  s.nextSeq = s.matchedCount + s.peddings.length ∧
  s.nextSeq = 1 + s.discoveredCount ∧
  (s.quit = true ↔ s.peddings = [])

/-- The pre-loop state satisfies the barrier invariant: one issued
token, zero matched, zero discovered, one pending. -/
theorem barrierInv_init : BarrierInv initSession := by
  refine ⟨rfl, rfl, ?_⟩
  simp [initSession]

/-- Every dispatch step from a still-running state preserves the
barrier invariant. -/
theorem barrierInv_step (s : Session) (e : Event) (hq : s.quit = false)
    (h : BarrierInv s) : BarrierInv (stepOk s e) := by
  obtain ⟨h1, h2, h3⟩ := h
  cases e with
  | done id seq =>
    by_cases hid : id = PW_ID_CORE
    · subst hid
      cases hc : s.peddings.contains seq with
      | false =>
        rw [stepOk_done_noop s _ seq (Or.inr hc)]
        exact ⟨h1, h2, h3⟩
      | true =>
        rw [stepOk_done_found s seq hc]
        have hm : seq ∈ s.peddings := List.elem_iff.mp hc
        have hlen := List.length_erase_of_mem hm
        have hpos : 0 < s.peddings.length := List.length_pos_of_mem hm
        refine ⟨?_, h2, ?_⟩
        · simp only [hlen]
          omega
        · cases he : (s.peddings.erase seq).isEmpty <;>
            simp_all [List.isEmpty_iff]
    · rw [stepOk_done_noop s id seq (Or.inl hid)]
      exact ⟨h1, h2, h3⟩
  | globalAdded g =>
    cases hr : relevantGlobal g with
    | none =>
      simp only [stepOk, hr]
      exact ⟨h1, h2, h3⟩
    | some kind =>
      simp only [stepOk, hr]
      refine ⟨?_, ?_, ?_⟩
      · show s.nextSeq + 1 = s.matchedCount + (s.peddings ++ [s.nextSeq]).length
        simp only [List.length_append, List.length_cons, List.length_nil]
        omega
      · show s.nextSeq + 1 = 1 + (s.discoveredCount + 1)
        omega
      · show s.quit = true ↔ s.peddings ++ [s.nextSeq] = []
        simp [hq]
  | nodeInfo info =>
    by_cases hr : s.requests.contains (info.id, Request.Node) = true
    · cases hd : deviceOfInfo? info with
      | none =>
        simp only [stepOk, hr, if_pos, hd]
        exact ⟨h1, h2, h3⟩
      | some d =>
        simp only [stepOk, hr, if_pos, hd]
        exact ⟨h1, h2, h3⟩
    · simp only [stepOk, if_neg hr]
      exact ⟨h1, h2, h3⟩
  | metaProperty m k v =>
    by_cases hr : s.requests.contains (m, Request.Meta) = true
    · simp only [stepOk, if_pos hr]
      exact ⟨h1, h2, h3⟩
    · simp only [stepOk, if_neg hr]
      exact ⟨h1, h2, h3⟩

/-- The barrier invariant holds after running the loop on any trace. -/
theorem barrierInv_runLoop (es : List Event) : ∀ s : Session,
    BarrierInv s → BarrierInv (runLoop s es) := by
  induction es with
  | nil => intro s h; exact h
  | cons e es ih =>
    intro s h
    by_cases hq : s.quit = true
    · simpa [runLoop, hq] using h
    · have hq2 : s.quit = false := by simpa using hq
      simp only [runLoop, hq2, Bool.false_eq_true, if_false]
      exact ih _ (barrierInv_step s e hq2 h)

/-- C1: over every trace — any interleaving of discovery, completion,
info and property events — the dispatch loop has terminated exactly when
the number of completion events matched against tracked tokens equals
one (the initial pre-loop barrier request) plus the number of discovered
relevant objects; with zero discoveries the very first matched
completion terminates the loop, through the same empty-vector rule.
`matchedCount` and `discoveredCount` are the instrumentation counters of
`Session`, incremented exactly at the match in the `done` closure and at
a relevant discovery in the registry closure. -/
theorem C1_terminates_iff_matched (es : List Event) :
    ((runLoop initSession es).quit = true ↔
      (runLoop initSession es).matchedCount =
        (runLoop initSession es).discoveredCount + 1) ∧
    (runLoop initSession [Event.done PW_ID_CORE 0]).quit = true ∧
    (runLoop initSession [Event.done PW_ID_CORE 0]).discoveredCount = 0 ∧
    (runLoop initSession [Event.done PW_ID_CORE 0]).matchedCount = 1 := by
  obtain ⟨h1, h2, h3⟩ := barrierInv_runLoop es initSession barrierInv_init
  refine ⟨⟨?_, ?_⟩, by decide, by decide, by decide⟩
  · intro hqt
    have hnil : (runLoop initSession es).peddings = [] := h3.mp hqt
    rw [hnil] at h1
    simp only [List.length_nil] at h1
    omega
  · intro hm
    have hlen : (runLoop initSession es).peddings.length = 0 := by omega
    exact h3.mpr (List.length_eq_zero.mp hlen)

/-- C7: every failure to create the loop or context, connect, obtain
the registry, or issue a barrier request — including a bind or sync
failure in the middle of enumeration — aborts the whole process with an
error carrying no result data (`Except.error` holds only the panic
message, so no partial results can escape), and a failing step inside
the loop aborts at once: no later event of the trace is ever
dispatched, so there is no retry or partial-enumeration recovery. -/
theorem C7_failures_are_fatal :
    (∀ (env : Env) (es : List Event),
      (env.mainloopOk = false ∨ env.contextOk = false ∨
        env.connectOk = false ∨ env.registryOk = false) →
      mainResult env es = Except.error "unwrap on None") ∧
    (∀ (env : Env) (es : List Event),
      env.mainloopOk = true → env.contextOk = true → env.connectOk = true →
      env.registryOk = true → env.syncOk 0 = false →
      mainResult env es = Except.error "sync failed") ∧
    (∀ (env : Env) (es : List Event) (m : String),
      env.mainloopOk = true → env.contextOk = true → env.connectOk = true →
      env.registryOk = true → env.syncOk 0 = true →
      runE env initSession es = Except.error m →
      mainResult env es = Except.error m) ∧
    (∀ (env : Env) (s : Session) (g : GlobalObject) (kind : Request) (es : List Event),
      s.quit = false → relevantGlobal g = some kind →
      env.bindOk s.bindCount = false →
      runE env s (Event.globalAdded g :: es) = Except.error "bind failed") ∧
    (∀ (env : Env) (s : Session) (g : GlobalObject) (kind : Request) (es : List Event),
      s.quit = false → relevantGlobal g = some kind →
      env.bindOk s.bindCount = true → env.syncOk s.nextSeq = false →
      runE env s (Event.globalAdded g :: es) = Except.error "sync failed") := by
  refine ⟨?_, ?_, ?_, ?_, ?_⟩
  · intro env es h
    rcases h with h | h | h | h
    · simp [mainResult, init_roundtrip, h]
    · cases h1 : env.mainloopOk <;>
        simp [mainResult, init_roundtrip, h1, h]
    · cases h1 : env.mainloopOk <;> cases h2 : env.contextOk <;>
        simp [mainResult, init_roundtrip, h1, h2, h]
    · cases h1 : env.mainloopOk <;> cases h2 : env.contextOk <;>
        cases h3 : env.connectOk <;>
        simp [mainResult, init_roundtrip, h1, h2, h3, h]
  · intro env es h1 h2 h3 h4 h5
    simp [mainResult, init_roundtrip, h1, h2, h3, h4, h5]
  · intro env es m h1 h2 h3 h4 h5 hrun
    simp [mainResult, init_roundtrip, h1, h2, h3, h4, h5, hrun]
  · intro env s g kind es hq hrel hbind
    simp [runE, hq, stepE, hrel, hbind]
  · intro env s g kind es hq hrel hbind hsync
    simp [runE, hq, stepE, hrel, hbind, hsync]

/-- The info events actually delivered to a registered node listener
during the run, in dispatch order, cut off at loop termination: the
remote info events the per-object device listeners fire for. -/
def firedInfos (s : Session) : List Event → List NodeInfo
  | [] => []
  | e :: es =>
    if s.quit then []
    else
      match e with
      | Event.nodeInfo info =>
        if s.requests.contains (info.id, Request.Node) then
          info :: firedInfos (stepOk s e) es
        else firedInfos (stepOk s e) es
      | _ => firedInfos (stepOk s e) es

/-- The device store after the loop is the store before it plus one
parsed device per delivered info event passing the guards. -/
theorem runLoop_devices (es : List Event) : ∀ s : Session,
    (runLoop s es).devices =
      s.devices ++ (firedInfos s es).filterMap deviceOfInfo? := by
  induction es with
  | nil => intro s; simp [runLoop, firedInfos]
  | cons e es ih =>
    intro s
    by_cases hq : s.quit = true
    · simp [runLoop, firedInfos, hq]
    · have hq2 : s.quit = false := by simpa using hq
      cases e with
      | nodeInfo info =>
        by_cases hr : s.requests.contains (info.id, Request.Node) = true
        · have hm : (info.id, Request.Node) ∈ s.requests := by simpa using hr
          cases hd : deviceOfInfo? info with
          | none =>
            have hs : stepOk s (Event.nodeInfo info) = s := by
              simp [stepOk, hm, hd]
            simp [runLoop, firedInfos, hq2, hm, hs, ih, hd]
          | some d =>
            have hs : stepOk s (Event.nodeInfo info) =
                { s with devices := s.devices ++ [d] } := by
              simp [stepOk, hm, hd]
            simp [runLoop, firedInfos, hq2, hm, hs, ih, hd]
        · have hm : (info.id, Request.Node) ∉ s.requests := by simpa using hr
          have hs : stepOk s (Event.nodeInfo info) = s := by
            simp only [stepOk]
            rw [if_neg hr]
          simp [runLoop, firedInfos, hq2, hm, hs, ih]
      | globalAdded g =>
        have hs : (stepOk s (Event.globalAdded g)).devices = s.devices := by
          cases hrel : relevantGlobal g <;> simp [stepOk, hrel]
        simp [runLoop, firedInfos, hq2, ih, hs]
      | done id seq =>
        have hs : (stepOk s (Event.done id seq)).devices = s.devices := by
          by_cases hid : id = PW_ID_CORE
          · subst hid
            cases hc : s.peddings.contains seq with
            | false => rw [stepOk_done_noop s _ seq (Or.inr hc)]
            | true => rw [stepOk_done_found s seq hc]
          · rw [stepOk_done_noop s id seq (Or.inl hid)]
        simp [runLoop, firedInfos, hq2, ih, hs]
      | metaProperty m k v =>
        have hs : (stepOk s (Event.metaProperty m k v)).devices = s.devices := by
          by_cases hr : (m, Request.Meta) ∈ s.requests
          · simp [stepOk, hr]
          · simp [stepOk, hr]
        simp [runLoop, firedInfos, hq2, ih, hs]

/-- Trace refuting C8 as stated: one relevant node object, announced
once, whose info event fires twice before termination. -/
def c8Trace : List Event :=
  [Event.globalAdded ⟨10, PwObjectType.Node, some [("media.class", "Audio/Sink")]⟩,
   Event.nodeInfo ⟨10, some [("media.class", "Audio/Sink")]⟩,
   Event.nodeInfo ⟨10, some [("media.class", "Audio/Sink")]⟩,
   Event.done PW_ID_CORE 0,
   Event.done PW_ID_CORE 1]

/-- C8 counterexample: on `c8Trace` the loop terminates with a single
discovered object holding a single subscription, yet the store ends
with two device entities for it — one per info firing — so the store
does not contain exactly one entity per object whose info event fired. -/
theorem C8_counterexample :
    (runLoop initSession c8Trace).quit = true ∧
    (runLoop initSession c8Trace).discoveredCount = 1 ∧
    (runLoop initSession c8Trace).requests = [(10, Request.Node)] ∧
    (runLoop initSession c8Trace).devices.length = 2 := by decide

/-- C8 (amended): after the run the device store holds exactly the
devices parsed from the info events delivered to subscribed node
listeners before termination, one entity per delivered firing that
passes the media-class guards, in dispatch order: an object whose
listener never fired contributes nothing, an info firing that fails the
guards contributes nothing, an object whose info fired several times
contributes one entity per firing, and each entity is a function of its
own info event alone, independent of every other event of the trace. -/
theorem C8_store_is_fired_infos (es : List Event) :
    (runLoop initSession es).devices =
      (firedInfos initSession es).filterMap deviceOfInfo? := by
  simpa [initSession] using runLoop_devices es initSession

end Pwtrain
